import Mathlib

/-!
Shallow embedding of the lerobot ROS device layer
(`lerobot/common/robot_devices/cameras/ros_camera.py`,
`lerobot/common/robot_devices/motors/ros_dynamixel.py`,
`lerobot/common/robot_devices/robots/ros_dynamixel_calibration.py`)
together with theorems checking the natural-language specification
against the code.

Conventions of the embedding:
* numpy float arrays are modelled as `List ℚ`, integer arrays as `List ℤ`;
  `np.round` (round half to even) is modelled by `npRound`;
* python exceptions are modelled by `Except` with an error enumeration per
  module; a raise whose message f-string itself fails (attribute lookup
  error) is modelled by a dedicated constructor;
* wall-clock reads (`time.perf_counter()`, `capture_timestamp_utc()`) are
  passed in as explicit rational parameters;
* the mutable object state of a session is a structure threaded through
  each method.
-/

set_option linter.unusedVariables false

/-- Round half to even on rationals, the semantics of `np.round` used by
`compute_nearest_rounded_position` and `revert_calibration`. -/
def npRound (q : ℚ) : ℤ :=
  let f := ⌊q⌋
  let r := q - (f : ℚ)
  if r < 1/2 then f
  else if 1/2 < r then f + 1
  else if f % 2 = 0 then f else f + 1

theorem npRound_dist_le (q : ℚ) : |q - (npRound q : ℚ)| ≤ 1/2 := by
  unfold npRound
  have h0 : (0 : ℚ) ≤ q - (⌊q⌋ : ℚ) := sub_nonneg.2 (Int.floor_le q)
  have h1 : q - (⌊q⌋ : ℚ) < 1 := by
    have := Int.lt_floor_add_one q
    linarith
  by_cases hlt : q - (⌊q⌋ : ℚ) < 1/2
  · simp only [hlt, if_true]
    rw [abs_of_nonneg h0]
    linarith
  · by_cases hgt : (1:ℚ)/2 < q - (⌊q⌋ : ℚ)
    · simp only [hlt, if_false, hgt, if_true]
      push_cast
      rw [abs_of_nonpos (by linarith)]
      linarith
    · have heq : q - (⌊q⌋ : ℚ) = 1/2 := le_antisymm (not_lt.1 hgt) (not_lt.1 hlt)
      simp only [hlt, if_false, hgt]
      by_cases hpar : ⌊q⌋ % 2 = 0
      · simp only [hpar, if_true]
        rw [abs_of_nonneg h0]
        linarith
      · simp only [hpar, if_false]
        push_cast
        rw [abs_of_nonpos (by linarith)]
        linarith

theorem npRound_intCast (z : ℤ) : npRound (z : ℚ) = z := by
  unfold npRound
  simp

/-- A per-motor record from the device numeric tables; `rupr` is the
raw-units-per-rotation entry for the motor model. -/
structure MotorModel where
  rupr : ℤ
  deriving DecidableEq, Repr

def ZERO_POSITION_DEGREE : ℤ := 0

def ROTATED_POSITION_DEGREE : ℤ := 90

/-- Torque register value meaning "disabled" (`TorqueMode.DISABLED.value = 0`);
the bus delivers register reads as floats, hence the rational type. -/
def TorqueMode.DISABLED : ℚ := 0

def TorqueMode.ENABLED : ℚ := 1

def CalibrationMode.DEGREE : String := "DEGREE"

def CalibrationMode.LINEAR : String := "LINEAR"

/-- Modelled from the spec: `convert_degrees_to_steps` is imported from
`lerobot.common.robot_devices.motors.dynamixel`, a module absent from the
source tree; the spec describes per-model "raw-units-per-rotation" tables
and degree-denominated reference rotations, so a rotation by `degrees`
corresponds to `degrees * rupr / 360` raw units for each motor model. -/
def convert_degrees_to_steps (degrees : ℤ) (models : List MotorModel) : List ℤ :=
  models.map (fun m => degrees * m.rupr / 360)

/-- Errors of the calibration module: `torquePrecondition` is the
`ValueError` raised when torque is enabled on some motor,
`invalidDriveMode` the `ValueError` raised by `assert_drive_mode`. -/
inductive CalErr
  | torquePrecondition
  | invalidDriveMode
  deriving DecidableEq, Repr

def assert_drive_mode (drive_mode : List ℤ) : Except CalErr Unit :=
  if ∀ v ∈ drive_mode, v = 0 ∨ v = 1 then .ok () else .error .invalidDriveMode

/-- The elementwise product `position * signed_drive_mode` with
`signed_drive_mode = -(drive_mode * 2 - 1)`, i.e. the body of
`apply_drive_mode` after its assertion has passed. -/
def apply_drive_mode_unchecked (position : List ℚ) (drive_mode : List ℤ) : List ℚ :=
  List.zipWith (fun p d => p * ((-(d * 2 - 1) : ℤ) : ℚ)) position drive_mode

def apply_drive_mode (position : List ℚ) (drive_mode : List ℤ) :
    Except CalErr (List ℚ) :=
  match assert_drive_mode drive_mode with
  | .error e => .error e
  | .ok _ => .ok (apply_drive_mode_unchecked position drive_mode)

/-- `compute_nearest_rounded_position`: per motor, divide by the step count
of the reference rotation (`ROTATED_POSITION_DEGREE`), `np.round`, multiply
back; the trailing `.astype(position.dtype)` is the identity on the float
arrays this bus produces. -/
def compute_nearest_rounded_position (position : List ℚ) (models : List MotorModel) :
    List ℚ :=
  let delta_turn := convert_degrees_to_steps ROTATED_POSITION_DEGREE models
  List.zipWith (fun (p : ℚ) (d : ℤ) => (npRound (p / (d : ℚ)) : ℚ) * (d : ℚ))
    position delta_turn

theorem apply_drive_mode_unchecked_involutive (x : List ℚ) (d : List ℤ)
    (hd : ∀ v ∈ d, v = 0 ∨ v = 1) (hl : x.length = d.length) :
    apply_drive_mode_unchecked (apply_drive_mode_unchecked x d) d = x := by
  induction x generalizing d with
  | nil => simp [apply_drive_mode_unchecked]
  | cons p ps ih =>
    cases d with
    | nil => simp at hl
    | cons v vs =>
      have hv : v = 0 ∨ v = 1 := hd v (List.mem_cons_self v vs)
      have hvs : ∀ w ∈ vs, w = 0 ∨ w = 1 := fun w hw => hd w (List.mem_cons_of_mem v hw)
      have hl' : ps.length = vs.length := by simpa using hl
      simp only [apply_drive_mode_unchecked, List.zipWith_cons_cons] at *
      rw [ih vs hvs hl']
      rcases hv with hv | hv <;> subst hv <;> norm_num

theorem npRound_mul_nearest (p δ : ℚ) (hδ : 0 < δ) (k : ℤ) :
    |p - (npRound (p / δ) : ℚ) * δ| ≤ |p - (k : ℚ) * δ| := by
  set r : ℤ := npRound (p / δ) with hr
  have hhalf : |p / δ - (r : ℚ)| ≤ 1/2 := hr ▸ npRound_dist_le (p / δ)
  have hfac : ∀ z : ℤ, p - (z : ℚ) * δ = (p / δ - (z : ℚ)) * δ := by
    intro z
    field_simp
    ring
  rw [hfac r, hfac k, abs_mul, abs_mul, abs_of_pos hδ]
  rcases eq_or_ne k r with hk | hk
  · rw [hk]
  · have hint : (1 : ℚ) ≤ |(r : ℚ) - (k : ℚ)| := by
      have h1 : (1 : ℤ) ≤ |r - k| := Int.one_le_abs (sub_ne_zero.2 (Ne.symm hk))
      exact_mod_cast h1
    have hk2 : (1:ℚ)/2 ≤ |p / δ - (k : ℚ)| := by
      have htri : |(r : ℚ) - (k : ℚ)| ≤ |p / δ - (r : ℚ)| + |p / δ - (k : ℚ)| := by
        calc |(r : ℚ) - (k : ℚ)| = |((r : ℚ) - p / δ) + (p / δ - (k : ℚ))| := by ring_nf
          _ ≤ |(r : ℚ) - p / δ| + |p / δ - (k : ℚ)| := abs_add _ _
          _ = |p / δ - (r : ℚ)| + |p / δ - (k : ℚ)| := by rw [abs_sub_comm]
      linarith
    have := mul_le_mul_of_nonneg_right (le_trans hhalf hk2) (le_of_lt hδ)
    exact this

theorem compute_nearest_rounded_position_get (position : List ℚ) (models : List MotorModel)
    (i : ℕ) (h : i < (compute_nearest_rounded_position position models).length)
    (hp : i < position.length) (hm : i < models.length) :
    (compute_nearest_rounded_position position models).get ⟨i, h⟩ =
      (npRound ((position.get ⟨i, hp⟩) /
          ((convert_degrees_to_steps ROTATED_POSITION_DEGREE models).get
            ⟨i, by simpa [convert_degrees_to_steps] using hm⟩ : ℚ)) : ℚ) *
        ((convert_degrees_to_steps ROTATED_POSITION_DEGREE models).get
            ⟨i, by simpa [convert_degrees_to_steps] using hm⟩ : ℚ) := by
  simp [compute_nearest_rounded_position, List.getElem_zipWith]

/-- Observable effects of `run_arm_calibration`, in program order: the
torque-enable register read, the operator prompts (print + blocking
`input(...)`), and the two `Present_Position` reads. -/
inductive CalEvent
  | readTorqueEnable
  | promptZero
  | readZeroPos
  | promptRotated
  | readRotatedPos
  | promptRest
  deriving DecidableEq, Repr

/-- The `calib_data` dict returned by `run_arm_calibration`. -/
structure CalibData where
  homing_offset : List ℚ
  drive_mode : List ℤ
  start_pos : List ℚ
  end_pos : List ℚ
  calib_mode : List String
  motor_names : List String
  deriving DecidableEq, Repr

/-- The three register reads the procedure performs on the arm, supplied as
inputs to the embedding (`arm.read("Torque_Enable")` and the two
`arm.read("Present_Position")` snapshots). -/
structure ArmReads where
  torque_enable : List ℚ
  zero_present : List ℚ
  rotated_present : List ℚ
  deriving DecidableEq, Repr

/-- The provisional zero-pose homing offset
`zero_target_pos - zero_nearest_pos` computed at the zero pose and then
overwritten by the rotated-pose offset. -/
def provisional_homing_offset (models : List MotorModel) (zero_pos : List ℚ) : List ℚ :=
  List.zipWith (fun (t : ℤ) (n : ℚ) => (t : ℚ) - n)
    (convert_degrees_to_steps ZERO_POSITION_DEGREE models)
    (compute_nearest_rounded_position zero_pos models)

/-- `run_arm_calibration`: returns the outcome together with the trace of
observable effects. Prompt messages and the URL template only feed the
printed text and are elided; the `robot_type`/`arm_type` strings still
govern `calib_mode`. -/
def run_arm_calibration (models : List MotorModel) (motor_names : List String)
    (robot_type arm_name arm_type : String) (reads : ArmReads) :
    Except CalErr CalibData × List CalEvent :=
  if ∃ v ∈ reads.torque_enable, v ≠ TorqueMode.DISABLED then
    (.error .torquePrecondition, [.readTorqueEnable])
  else
    let zero_pos := reads.zero_present
    let homing_offset := provisional_homing_offset models zero_pos
    let rotated_target_pos := convert_degrees_to_steps ROTATED_POSITION_DEGREE models
    let rotated_pos := reads.rotated_present
    let drive_mode := List.zipWith (fun rp zp => if rp < zp then (1 : ℤ) else 0)
      rotated_pos zero_pos
    match apply_drive_mode rotated_pos drive_mode with
    | .error e =>
      (.error e,
        [.readTorqueEnable, .promptZero, .readZeroPos, .promptRotated, .readRotatedPos])
    | .ok rotated_drived_pos =>
      let rotated_nearest_pos := compute_nearest_rounded_position rotated_drived_pos models
      let homing_offset := List.zipWith (fun (t : ℤ) (n : ℚ) => (t : ℚ) - n)
        rotated_target_pos rotated_nearest_pos
      let calib_mode :=
        if (robot_type = "widowx" ∨ robot_type = "aloha") ∧ "gripper" ∈ motor_names then
          (motor_names.map (fun _ => CalibrationMode.DEGREE)).set
            (motor_names.indexOf "gripper") CalibrationMode.LINEAR
        else motor_names.map (fun _ => CalibrationMode.DEGREE)
      (.ok { homing_offset := homing_offset
             drive_mode := drive_mode
             start_pos := zero_pos
             end_pos := rotated_pos
             calib_mode := calib_mode
             motor_names := motor_names },
        [.readTorqueEnable, .promptZero, .readZeroPos, .promptRotated, .readRotatedPos,
         .promptRest])

theorem zipWith_drive_mode_mem (a b : List ℚ) :
    ∀ v ∈ List.zipWith (fun rp zp => if rp < zp then (1 : ℤ) else 0) a b, v = 0 ∨ v = 1 := by
  induction a generalizing b with
  | nil => simp
  | cons p ps ih =>
    cases b with
    | nil => simp
    | cons q qs =>
      intro v hv
      simp only [List.zipWith_cons_cons, List.mem_cons] at hv
      rcases hv with hv | hv
      · subst hv
        split_ifs <;> simp
      · exact ih qs v hv

theorem apply_drive_mode_of_valid (x : List ℚ) (d : List ℤ)
    (hd : ∀ v ∈ d, v = 0 ∨ v = 1) :
    apply_drive_mode x d = .ok (apply_drive_mode_unchecked x d) := by
  unfold apply_drive_mode assert_drive_mode
  rw [if_pos hd]

theorem run_arm_calibration_ok_core (models : List MotorModel) (motor_names : List String)
    (robot_type arm_name arm_type : String) (reads : ArmReads)
    (ht : ∀ v ∈ reads.torque_enable, v = TorqueMode.DISABLED) :
    run_arm_calibration models motor_names robot_type arm_name arm_type reads =
      (.ok { homing_offset := List.zipWith (fun (t : ℤ) (n : ℚ) => (t : ℚ) - n)
               (convert_degrees_to_steps ROTATED_POSITION_DEGREE models)
               (compute_nearest_rounded_position
                 (apply_drive_mode_unchecked reads.rotated_present
                   (List.zipWith (fun rp zp => if rp < zp then (1 : ℤ) else 0)
                     reads.rotated_present reads.zero_present)) models)
             drive_mode := List.zipWith (fun rp zp => if rp < zp then (1 : ℤ) else 0)
               reads.rotated_present reads.zero_present
             start_pos := reads.zero_present
             end_pos := reads.rotated_present
             calib_mode :=
               if (robot_type = "widowx" ∨ robot_type = "aloha") ∧
                   "gripper" ∈ motor_names then
                 (motor_names.map (fun _ => CalibrationMode.DEGREE)).set
                   (motor_names.indexOf "gripper") CalibrationMode.LINEAR
               else motor_names.map (fun _ => CalibrationMode.DEGREE)
             motor_names := motor_names },
       [.readTorqueEnable, .promptZero, .readZeroPos, .promptRotated, .readRotatedPos,
        .promptRest]) := by
  have hno : ¬∃ v ∈ reads.torque_enable, v ≠ TorqueMode.DISABLED := by
    push_neg
    exact ht
  unfold run_arm_calibration
  rw [if_neg hno]
  simp only [apply_drive_mode_of_valid _ _ (zipWith_drive_mode_mem _ _)]

/-- Decoded image frames are modelled abstractly by an identifier; the
claims never inspect pixel contents. -/
abbrev Image := ℕ

/-- Errors of `RosCamera`: `alreadyConnected` is the `RuntimeError`
"RosCamera(topic) is already connected.", `notConnected` the `Exception`
"ROS camera not connected. Call `connect()` first.", `noImage` the
`RuntimeError` "No image received yet.", and `pollerStartup` the
`Exception` "The thread responsible for `self.async_read()` took too much
time to start...". -/
inductive CamErr
  | alreadyConnected
  | notConnected
  | noImage
  | pollerStartup
  deriving DecidableEq, Repr

/-- The camera's `self.logs` dict; only the two keys the code writes. -/
structure CamLogs where
  delta_timestamp_s : Option ℚ
  timestamp_utc : Option ℚ
  deriving DecidableEq, Repr

/-- Mutable state of a `RosCamera` instance. `thread = none` models
`self.thread is None` (background reader never started); `thread = some b`
a started thread whose `is_alive()` is `b`. `stop_event = none` models
`self.stop_event is None`. -/
structure CamState where
  is_connected : Bool
  image : Option Image
  thread : Option Bool
  stop_event : Option Bool
  node : Bool
  subscription : Bool
  fps : ℕ
  logs : CamLogs
  deriving DecidableEq, Repr

namespace RosCamera

/-- `connect`: raises when already connected, otherwise creates the node,
the subscription and the (external) spin thread and sets the flag. -/
def connect (s : CamState) : Except CamErr CamState :=
  if s.is_connected then .error .alreadyConnected
  else .ok { s with node := true, subscription := true, is_connected := true }

/-- `_image_callback`: a successfully decoded frame (rotation and color
conversion already applied) replaces the buffer and stamps
`logs["timestamp_utc"]`; a decode failure is caught, logged through the
node logger, and leaves both the buffer and the log untouched. -/
def image_callback (s : CamState) (decoded : Option Image) (t : ℚ) : CamState :=
  match decoded with
  | some img => { s with image := some img,
                         logs := { s.logs with timestamp_utc := some t } }
  | none => s

/-- `read`: the two `Timing Log` entries are written first, from the two
`perf_counter` samples `t0`, `t1` and the UTC clock `tU`; only then are
the connection and buffer preconditions checked. -/
def read (s : CamState) (t0 t1 tU : ℚ) : CamState × Except CamErr Image :=
  let s' := { s with logs := { delta_timestamp_s := some (t1 - t0),
                               timestamp_utc := some tU } }
  (s',
    if s.is_connected = false then .error .notConnected
    else match s.image with
      | none => .error .noImage
      | some img => .ok img)

/-- `disconnect`: joins a live background thread, destroys handles, clears
the buffer and the flag; no path raises. -/
def disconnect (s : CamState) : CamState :=
  let s₁ := if s.thread = some true
    then { s with stop_event := none, thread := none }
    else s
  { s₁ with image := none, is_connected := false, subscription := false, node := false }

/-- Outcome of `async_read` when the waiting loop is observed over a finite
window: a frame, a raised error, or still waiting when the window ends. -/
inductive AsyncResult
  | ok (img : Image)
  | err (e : CamErr)
  | pending
  deriving DecidableEq, Repr

/-- The `while self.color_image is None` loop of `async_read`. Each
observation supplies the value of `self.color_image` read at the loop head
and the `thread.is_alive()` answer of that iteration (`false` also covers
`thread.ident is None`); `num_tries` is incremented before the liveness
check, which fires once `num_tries > fps`. -/
def async_read_wait (fps : ℕ) : ℕ → List (Option Image × Bool) → AsyncResult
  | _, [] => .pending
  | num_tries, (color, alive) :: rest =>
    match color with
    | some img => .ok img
    | none =>
      if num_tries + 1 > fps ∧ alive = false then .err .pollerStartup
      else async_read_wait fps (num_tries + 1) rest

/-- `async_read`: the connection check and the `self.image is None` check
both run before the background reader thread is ever created; only past
them is the thread lazily started and the waiting loop entered. -/
def async_read (s : CamState) (obs : List (Option Image × Bool)) :
    CamState × AsyncResult :=
  if s.is_connected = false then (s, .err .notConnected)
  else match s.image with
    | none => (s, .err .noImage)
    | some _ =>
      let s' := if s.thread = none
        then { s with stop_event := some false, thread := some true }
        else s
      (s', async_read_wait s.fps 0 obs)

end RosCamera

/-- Errors of `RosDynamixelMotorsBus`. `attributeErrorPort` models the
`AttributeError` Python actually raises on the
already-connected/not-connected paths of `connect`, `read`, `write` and
`read_with_motor_ids`: their message f-strings interpolate `self.port`,
an attribute `__init__` never assigns, so building the message fails
before the named exception is constructed. `disconnect`'s message does
not mention `self.port`, so it raises the genuine
`RobotDeviceNotConnectedError`. -/
inductive BusErr
  | robotDeviceAlreadyConnected
  | robotDeviceNotConnected
  | attributeErrorPort
  deriving DecidableEq, Repr

/-- Mutable state of a `RosDynamixelMotorsBus` instance. `motors` maps a
motor name to its `(id, model)` pair; `joint_positions` and `logs` are the
python dicts, modelled as association lists whose first match wins. -/
structure BusState where
  is_connected : Bool
  motors : List (String × ℤ × String)
  joint_positions : List (String × ℚ)
  logs : List (String × ℚ)
  cmd_pub : Bool
  state_sub : Bool
  deriving DecidableEq, Repr

/-- Python dict assignment `d[k] = v` on an association list. -/
def dict_set (l : List (String × ℚ)) (k : String) (v : ℚ) : List (String × ℚ) :=
  (k, v) :: l.filter (fun p => p.1 != k)

namespace RosDynamixelMotorsBus

def motor_names (s : BusState) : List String := s.motors.map (·.1)

def motor_models (s : BusState) : List String := s.motors.map (·.2.2)

/-- `connect`: the already-connected raise interpolates the missing
`self.port`, so the failure surfaced is the `AttributeError`; otherwise
the node, publisher and subscriber are created and the flag set. -/
def connect (s : BusState) : Except BusErr BusState :=
  if s.is_connected then .error .attributeErrorPort
  else .ok { s with cmd_pub := true, state_sub := true, is_connected := true }

/-- `_on_joint_state`: each `(name, position)` pair of the message is
written into the `joint_positions` dict. -/
def on_joint_state (s : BusState) (names : List String) (positions : List ℚ) :
    BusState :=
  let jp := (List.zip names positions).foldl (fun acc p => dict_set acc p.1 p.2)
    s.joint_positions
  { s with joint_positions := jp }

/-- `disconnect`: requires `Connected`, raising
`RobotDeviceNotConnectedError` otherwise; then destroys the subscriber and
drops the publisher. -/
def disconnect (s : BusState) : Except BusErr BusState :=
  if s.is_connected = false then .error .robotDeviceNotConnected
  else .ok { s with state_sub := false, cmd_pub := false, is_connected := false }

/-- `__del__`: calls `disconnect` only when the connected flag is set, so
object teardown never raises. -/
def del_finalize (s : BusState) : BusState :=
  if s.is_connected then
    match disconnect s with
    | .ok s' => s'
    | .error _ => s
  else s

/-- `read`: the not-connected raise hits the missing `self.port` attribute;
when connected, every requested motor reads
`self.joint_positions.get(name, 0.0)` — the 0.0 default, with no
no-data check — and only the latency key
`delta_timestamp_s_read_<data_name>` is written to the log dict. -/
def read (s : BusState) (data_name : String) (motor_names : Option (List String))
    (t0 t1 : ℚ) : BusState × Except BusErr (List ℚ) :=
  if s.is_connected = false then (s, .error .attributeErrorPort)
  else
    let names : List String := match motor_names with
      | none => s.motors.map (fun m => m.1)
      | some ns => ns
    let values := names.map (fun n => (s.joint_positions.lookup n).getD 0)
    let logs' := dict_set s.logs ("delta_timestamp_s_read_" ++ data_name) (t1 - t0)
    let s' := { s with logs := logs' }
    (s', .ok values)

/-- `apply_calibration` is a stub in this bus: it returns the values
unchanged. -/
def apply_calibration (s : BusState) (values : List ℚ)
    (motor_names : Option (List String)) : List ℚ :=
  values

/-- `np.ndarray.astype(np.int32)`: wrap into the signed 32-bit range. -/
def int32_astype (z : ℤ) : ℤ := (z + 2 ^ 31) % 2 ^ 32 - 2 ^ 31

/-- `revert_calibration`: `np.round(values).astype(np.int32)`. -/
def revert_calibration (s : BusState) (values : List ℚ)
    (motor_names : Option (List String)) : List ℤ :=
  values.map (fun v => int32_astype (npRound v))

end RosDynamixelMotorsBus

/-- A connected camera session that has never received a frame. -/
def camNoImage : CamState :=
  { is_connected := true, image := none, thread := none, stop_event := none,
    node := true, subscription := true, fps := 10,
    logs := { delta_timestamp_s := none, timestamp_utc := none } }

/-- A camera session on which `connect` was never called. -/
def camNeverConnected : CamState :=
  { is_connected := false, image := none, thread := none, stop_event := none,
    node := false, subscription := false, fps := 30,
    logs := { delta_timestamp_s := none, timestamp_utc := none } }

/-- A two-motor bus session on which `connect` was never called. -/
def busNeverConnected : BusState :=
  { is_connected := false, motors := [("m1", 1, "xl330"), ("m2", 2, "xl330")],
    joint_positions := [], logs := [], cmd_pub := false, state_sub := false }

/-- A connected two-motor bus session before any joint-state message. -/
def busConnectedNoData : BusState :=
  { busNeverConnected with is_connected := true, cmd_pub := true, state_sub := true }

/-- The §8 calibration scenario: two motors, 1000 raw units per rotation. -/
def scen_models : List MotorModel := [⟨1000⟩, ⟨1000⟩]

def scen_names : List String := ["m1", "m2"]

def scen_reads : ArmReads :=
  { torque_enable := [0, 0], zero_present := [100, 100], rotated_present := [50, 150] }

/-- C1 counterexample: on the connected camera `camNoImage`, where no
sample has ever arrived, `async_read` fails at once with the no-data
error `noImage` — not `PollerStartupError` — and returns with
`thread = none`: the Background Poller was never started, even given a
20-poll window of a dead poller that, per the claim, should end in
`PollerStartupError` within 10 tries. -/
theorem async_read_never_sampled_counterexample :
    RosCamera.async_read camNoImage
        (List.replicate 20 ((none : Option Image), false)) =
      (camNoImage, .err .noImage) ∧
    RosCamera.AsyncResult.err CamErr.noImage ≠
      RosCamera.AsyncResult.err CamErr.pollerStartup ∧
    camNoImage.thread = none := by
  refine ⟨by decide, by decide, rfl⟩

/-- C1 (amended): on a connected camera session where no sample has ever
arrived, `async_read` fails immediately with the no-data error and leaves
the session state — in particular the Background Poller handle —
untouched; the lazy poller start and the `PollerStartupError` waiting
loop are reached only on calls made after a first frame has arrived. -/
theorem async_read_never_sampled_fails_fast (s : CamState)
    (obs : List (Option Image × Bool)) (hc : s.is_connected = true)
    (hi : s.image = none) :
    RosCamera.async_read s obs = (s, .err .noImage) := by
  unfold RosCamera.async_read
  rw [hc, hi]
  simp

theorem async_read_never_sampled_fails_fast_witness :
    RosCamera.async_read camNoImage [] = (camNoImage, .err .noImage) :=
  async_read_never_sampled_fails_fast camNoImage [] rfl rfl

/-- C10: the camera's `read` overwrites both Timing Log entries —
`delta_timestamp_s` and `timestamp_utc` — before any precondition is
checked, so the post-call log holds the fresh values for every state,
including the disconnected and never-sampled error paths. -/
theorem read_always_overwrites_logs (s : CamState) (t0 t1 tU : ℚ) :
    ((RosCamera.read s t0 t1 tU).1).logs =
      { delta_timestamp_s := some (t1 - t0), timestamp_utc := some tU } := rfl

/-- C6: double-connect behavior at the failing input. The camera raises
its already-connected `RuntimeError` and leaves the state unchanged (the
raise precedes every mutation), as claimed; the motor bus instead raises
the `AttributeError` produced while interpolating the missing `self.port`
into the intended `RobotDeviceAlreadyConnectedError` message — the
dedicated error type and its descriptive message never materialize. -/
theorem connect_double_connect_behavior :
    RosCamera.connect camNoImage = .error .alreadyConnected ∧
    RosDynamixelMotorsBus.connect busConnectedNoData = .error .attributeErrorPort ∧
    BusErr.attributeErrorPort ≠ BusErr.robotDeviceAlreadyConnected := by
  refine ⟨rfl, rfl, by decide⟩

/-- C4 counterexample: calling `disconnect()` on the never-connected motor
bus raises `RobotDeviceNotConnectedError`, contradicting the claim that
disconnecting a never-connected session of every device flavor does not
raise. -/
theorem disconnect_never_connected_counterexample :
    RosDynamixelMotorsBus.disconnect busNeverConnected =
      .error .robotDeviceNotConnected := rfl

/-- C4 (amended): the camera's `disconnect` never raises and always
leaves the connected flag false, even when never connected or called
twice; the motor bus's `disconnect` instead raises
`RobotDeviceNotConnectedError` whenever the session is not connected —
only its `__del__` teardown guard makes finalization a safe no-op
there. -/
theorem disconnect_idempotence_split :
    (∀ s : CamState, (RosCamera.disconnect s).is_connected = false) ∧
    (∀ b : BusState, b.is_connected = false →
       RosDynamixelMotorsBus.disconnect b = .error .robotDeviceNotConnected) ∧
    (∀ b : BusState, b.is_connected = false →
       RosDynamixelMotorsBus.del_finalize b = b) := by
  refine ⟨?_, ?_, ?_⟩
  · intro s
    unfold RosCamera.disconnect
    by_cases h : s.thread = some true <;> simp [h]
  · intro b hb
    unfold RosDynamixelMotorsBus.disconnect
    rw [hb]
    rfl
  · intro b hb
    unfold RosDynamixelMotorsBus.del_finalize
    rw [hb]
    rfl

theorem disconnect_idempotence_split_witness :
    (RosCamera.disconnect camNeverConnected).is_connected = false ∧
    RosDynamixelMotorsBus.disconnect busNeverConnected =
      .error .robotDeviceNotConnected ∧
    RosDynamixelMotorsBus.del_finalize busNeverConnected = busNeverConnected :=
  ⟨disconnect_idempotence_split.1 camNeverConnected,
   disconnect_idempotence_split.2.1 busNeverConnected rfl,
   disconnect_idempotence_split.2.2 busNeverConnected rfl⟩

theorem zipWith_drive_mode_getD (a b : List ℚ) (i : ℕ) (ha : i < a.length)
    (hb : i < b.length) :
    ((List.zipWith (fun rp zp => if rp < zp then (1 : ℤ) else 0) a b).getD i 0 = 1 ↔
      a.getD i 0 < b.getD i 0) := by
  have hz : i < (List.zipWith (fun rp zp => if rp < zp then (1 : ℤ) else 0) a b).length := by
    rw [List.length_zipWith]
    omega
  rw [List.getD_eq_getElem _ _ hz, List.getD_eq_getElem _ _ ha, List.getD_eq_getElem _ _ hb,
    List.getElem_zipWith]
  constructor
  · intro h1
    by_contra hlt
    simp [if_neg hlt] at h1
  · intro hlt
    simp [if_pos hlt]

/-- C2: with torque disabled on every motor, the calibration record has
`drive_mode[i] = 1` exactly when `rotated_pos[i] < zero_pos[i]` (else 0),
and its final `homing_offset` is
`rotated_target - nearest(apply_drive_mode(rotated_pos, drive_mode))`:
the rotated-pose branch alone, overwriting the provisional
`provisional_homing_offset` computed at the zero pose. -/
theorem run_arm_calibration_rotated_branch (models : List MotorModel)
    (motor_names : List String) (robot_type arm_name arm_type : String)
    (reads : ArmReads)
    (ht : ∀ v ∈ reads.torque_enable, v = TorqueMode.DISABLED) :
    ((run_arm_calibration models motor_names robot_type arm_name arm_type reads).1 =
      .ok { homing_offset := List.zipWith (fun (t : ℤ) (n : ℚ) => (t : ℚ) - n)
              (convert_degrees_to_steps ROTATED_POSITION_DEGREE models)
              (compute_nearest_rounded_position
                (apply_drive_mode_unchecked reads.rotated_present
                  (List.zipWith (fun rp zp => if rp < zp then (1 : ℤ) else 0)
                    reads.rotated_present reads.zero_present)) models)
            drive_mode := List.zipWith (fun rp zp => if rp < zp then (1 : ℤ) else 0)
              reads.rotated_present reads.zero_present
            start_pos := reads.zero_present
            end_pos := reads.rotated_present
            calib_mode :=
              if (robot_type = "widowx" ∨ robot_type = "aloha") ∧
                  "gripper" ∈ motor_names then
                (motor_names.map (fun _ => CalibrationMode.DEGREE)).set
                  (motor_names.indexOf "gripper") CalibrationMode.LINEAR
              else motor_names.map (fun _ => CalibrationMode.DEGREE)
            motor_names := motor_names }) ∧
    ∀ i, i < reads.rotated_present.length → i < reads.zero_present.length →
      ((List.zipWith (fun rp zp => if rp < zp then (1 : ℤ) else 0)
          reads.rotated_present reads.zero_present).getD i 0 = 1 ↔
        reads.rotated_present.getD i 0 < reads.zero_present.getD i 0) := by
  constructor
  · rw [run_arm_calibration_ok_core models motor_names robot_type arm_name arm_type reads ht]
  · intro i ha hb
    exact zipWith_drive_mode_getD reads.rotated_present reads.zero_present i ha hb

theorem npRound_eq_of (q : ℚ) (n : ℤ) (h1 : (n : ℚ) - 1/2 < q)
    (h2 : q < (n : ℚ) + 1/2) : npRound q = n := by
  unfold npRound
  rcases le_or_lt (n : ℚ) q with hq | hq
  · have hf : ⌊q⌋ = n := Int.floor_eq_iff.2 ⟨hq, by linarith⟩
    rw [hf]
    have hlt : q - (n : ℚ) < 1/2 := by linarith
    simp only [hlt, if_true]
  · have hf : ⌊q⌋ = n - 1 := by
      apply Int.floor_eq_iff.2
      constructor
      · push_cast
        linarith
      · push_cast
        linarith
    rw [hf]
    have hr1 : ¬(q - ((n - 1 : ℤ) : ℚ) < 1/2) := by push_cast; linarith
    have hr2 : 1/2 < q - ((n - 1 : ℤ) : ℚ) := by push_cast; linarith
    simp only [hr1, if_false, hr2, if_true]
    omega

theorem run_arm_calibration_rotated_branch_witness :
    ((run_arm_calibration scen_models scen_names "koch" "main" "follower" scen_reads).1 =
      .ok { homing_offset := [250, 0], drive_mode := [1, 0], start_pos := [100, 100],
            end_pos := [50, 150], calib_mode := ["DEGREE", "DEGREE"],
            motor_names := ["m1", "m2"] }) ∧
    provisional_homing_offset scen_models scen_reads.zero_present = [0, 0] := by
  have h := run_arm_calibration_rotated_branch scen_models scen_names "koch" "main"
    "follower" scen_reads (by decide)
  have hdm : List.zipWith (fun rp zp => if rp < zp then (1 : ℤ) else 0)
      scen_reads.rotated_present scen_reads.zero_present = [1, 0] := by decide
  have hsteps : convert_degrees_to_steps ROTATED_POSITION_DEGREE scen_models =
      [250, 250] := by decide
  have hsteps0 : convert_degrees_to_steps ZERO_POSITION_DEGREE scen_models = [0, 0] := by
    decide
  have e1 : npRound ((-50 : ℚ) / ((250 : ℤ) : ℚ)) = 0 :=
    npRound_eq_of _ 0 (by norm_num) (by norm_num)
  have e2 : npRound ((150 : ℚ) / ((250 : ℤ) : ℚ)) = 1 :=
    npRound_eq_of _ 1 (by norm_num) (by norm_num)
  have e3 : npRound ((100 : ℚ) / ((250 : ℤ) : ℚ)) = 0 :=
    npRound_eq_of _ 0 (by norm_num) (by norm_num)
  have hadm : apply_drive_mode_unchecked scen_reads.rotated_present [1, 0] =
      [(-50 : ℚ), 150] := by
    simp only [apply_drive_mode_unchecked, scen_reads, List.zipWith_cons_cons,
      List.zipWith_nil_left]
    norm_num
  have hnear : compute_nearest_rounded_position [(-50 : ℚ), 150] scen_models = [0, 250] := by
    simp only [compute_nearest_rounded_position, hsteps, List.zipWith_cons_cons,
      List.zipWith_nil_left]
    rw [e1, e2]
    norm_num
  have hnear0 : compute_nearest_rounded_position scen_reads.zero_present scen_models =
      [0, 0] := by
    simp only [compute_nearest_rounded_position, hsteps, scen_reads,
      List.zipWith_cons_cons, List.zipWith_nil_left]
    rw [e3]
    norm_num
  constructor
  · rw [h.1, hdm, hadm, hnear, hsteps]
    rw [if_neg (by decide :
      ¬(("koch" = "widowx" ∨ "koch" = "aloha") ∧ "gripper" ∈ scen_names))]
    simp only [List.zipWith_cons_cons, List.zipWith_nil_left]
    norm_num [scen_reads, scen_names, CalibrationMode.DEGREE]
  · unfold provisional_homing_offset
    rw [hsteps0, hnear0]
    simp only [List.zipWith_cons_cons, List.zipWith_nil_left]
    norm_num

/-- C3 counterexample: for a motor with 1000 raw units per full rotation,
the multiples of one full rotation are 0, ±1000, ±2000, …; the nearest one
to the raw position 250 is 0, yet `compute_nearest_rounded_position`
returns 250 itself (the 90°-reference step count), which is not 0 and not
a multiple of 1000. -/
theorem compute_nearest_full_rotation_counterexample :
    compute_nearest_rounded_position [(250 : ℚ)] [⟨1000⟩] = [(250 : ℚ)] ∧
    (250 : ℚ) ≠ 0 := by
  constructor
  · have hsteps : convert_degrees_to_steps ROTATED_POSITION_DEGREE [⟨1000⟩] = [250] := by
      decide
    have e : npRound ((250 : ℚ) / ((250 : ℤ) : ℚ)) = 1 :=
      npRound_eq_of _ 1 (by norm_num) (by norm_num)
    simp only [compute_nearest_rounded_position, hsteps, List.zipWith_cons_cons,
      List.zipWith_nil_left]
    rw [e]
    norm_num
  · norm_num

/-- C3 (amended): `compute_nearest_rounded_position` rounds each raw
position to the nearest multiple of the *reference-rotation* step count —
the raw units of `ROTATED_POSITION_DEGREE` (90°), i.e. a quarter
rotation — not of one full rotation; ties go to the even multiple, and
the result type matches the input array type (`.astype(position.dtype)`). -/
theorem compute_nearest_rounded_position_nearest_quarter (position : List ℚ)
    (models : List MotorModel) (i : ℕ)
    (h : i < (compute_nearest_rounded_position position models).length)
    (hp : i < position.length)
    (hm' : i < (convert_degrees_to_steps ROTATED_POSITION_DEGREE models).length)
    (hpos : 0 < (convert_degrees_to_steps ROTATED_POSITION_DEGREE models).get ⟨i, hm'⟩) :
    (∃ k : ℤ, (compute_nearest_rounded_position position models).get ⟨i, h⟩ =
      (k : ℚ) *
        ((convert_degrees_to_steps ROTATED_POSITION_DEGREE models).get ⟨i, hm'⟩ : ℚ)) ∧
    ∀ k : ℤ,
      |position.get ⟨i, hp⟩ - (compute_nearest_rounded_position position models).get ⟨i, h⟩| ≤
        |position.get ⟨i, hp⟩ - (k : ℚ) *
          ((convert_degrees_to_steps ROTATED_POSITION_DEGREE models).get ⟨i, hm'⟩ : ℚ)| := by
  have hm : i < models.length := by
    simpa [convert_degrees_to_steps] using hm'
  have hget := compute_nearest_rounded_position_get position models i h hp hm
  have hδ : (0 : ℚ) <
      ((convert_degrees_to_steps ROTATED_POSITION_DEGREE models).get ⟨i, hm'⟩ : ℚ) := by
    exact_mod_cast hpos
  constructor
  · exact ⟨npRound (position.get ⟨i, hp⟩ /
      ((convert_degrees_to_steps ROTATED_POSITION_DEGREE models).get ⟨i, hm'⟩ : ℚ)), hget⟩
  · intro k
    rw [hget]
    exact npRound_mul_nearest _ _ hδ k

theorem compute_nearest_rounded_position_nearest_quarter_witness :
    (∃ k : ℤ, (compute_nearest_rounded_position [(600 : ℚ)] [⟨1000⟩]).get
        ⟨0, by decide⟩ =
      (k : ℚ) *
        ((convert_degrees_to_steps ROTATED_POSITION_DEGREE [⟨1000⟩]).get
          ⟨0, by decide⟩ : ℚ)) ∧
    ∀ k : ℤ,
      |([(600 : ℚ)]).get ⟨0, by decide⟩ -
          (compute_nearest_rounded_position [(600 : ℚ)] [⟨1000⟩]).get ⟨0, by decide⟩| ≤
        |([(600 : ℚ)]).get ⟨0, by decide⟩ - (k : ℚ) *
          ((convert_degrees_to_steps ROTATED_POSITION_DEGREE [⟨1000⟩]).get
            ⟨0, by decide⟩ : ℚ)| :=
  compute_nearest_rounded_position_nearest_quarter [(600 : ℚ)] [⟨1000⟩] 0
    (by decide) (by decide) (by decide) (by decide)

/-- C5 counterexample: on the connected bus `busConnectedNoData`, whose
`joint_positions` dict has never received a joint-state message, `read`
succeeds with the default value 0.0 for both motors — it does not raise a
no-data error. -/
theorem bus_read_no_data_counterexample :
    (RosDynamixelMotorsBus.read busConnectedNoData "Present_Position" none 0 0).2 =
      .ok [0, 0] := rfl

/-- C5 (amended): the camera's `read` follows the claimed contract
(not-connected error, then no-data error, then the buffered frame, with
latency and UTC timestamp recorded); the motor bus's `read` raises on the
disconnected path — as the `AttributeError` from interpolating the missing
`self.port` into the intended `RobotDeviceNotConnectedError` message — but
has no no-data error: each requested motor reads
`joint_positions.get(name, 0.0)`, defaulting to 0.0, and only the read
latency key is recorded, not a wall-clock timestamp. -/
theorem read_contract_split :
    (∀ (s : CamState) (t0 t1 tU : ℚ), s.is_connected = false →
       (RosCamera.read s t0 t1 tU).2 = .error .notConnected) ∧
    (∀ (s : CamState) (t0 t1 tU : ℚ), s.is_connected = true → s.image = none →
       (RosCamera.read s t0 t1 tU).2 = .error .noImage) ∧
    (∀ (s : CamState) (t0 t1 tU : ℚ) (img : Image), s.is_connected = true →
       s.image = some img →
       (RosCamera.read s t0 t1 tU).2 = .ok img ∧
       ((RosCamera.read s t0 t1 tU).1).logs =
         { delta_timestamp_s := some (t1 - t0), timestamp_utc := some tU }) ∧
    (∀ (b : BusState) (dn : String) (mn : Option (List String)) (t0 t1 : ℚ),
       b.is_connected = false →
       (RosDynamixelMotorsBus.read b dn mn t0 t1).2 = .error .attributeErrorPort) ∧
    (∀ (b : BusState) (dn : String) (t0 t1 : ℚ), b.is_connected = true →
       (RosDynamixelMotorsBus.read b dn none t0 t1).2 =
         .ok ((b.motors.map (fun m => m.1)).map
           (fun n => (b.joint_positions.lookup n).getD 0)) ∧
       ((RosDynamixelMotorsBus.read b dn none t0 t1).1).logs =
         dict_set b.logs ("delta_timestamp_s_read_" ++ dn) (t1 - t0)) := by
  refine ⟨?_, ?_, ?_, ?_, ?_⟩
  · intro s t0 t1 tU hc
    unfold RosCamera.read
    rw [hc]
    rfl
  · intro s t0 t1 tU hc hi
    unfold RosCamera.read
    rw [hc, hi]
    rfl
  · intro s t0 t1 tU img hc hi
    unfold RosCamera.read
    rw [hc, hi]
    exact ⟨rfl, rfl⟩
  · intro b dn mn t0 t1 hb
    unfold RosDynamixelMotorsBus.read
    rw [hb]
    rfl
  · intro b dn t0 t1 hb
    unfold RosDynamixelMotorsBus.read
    rw [hb]
    exact ⟨rfl, rfl⟩

theorem read_contract_split_witness :
    (RosCamera.read camNeverConnected 0 1 2).2 = .error CamErr.notConnected ∧
    (RosCamera.read camNoImage 0 1 2).2 = .error CamErr.noImage ∧
    (RosDynamixelMotorsBus.read busNeverConnected "Present_Position" none 0 1).2 =
      .error BusErr.attributeErrorPort :=
  ⟨read_contract_split.1 camNeverConnected 0 1 2 rfl,
   read_contract_split.2.1 camNoImage 0 1 2 rfl rfl,
   read_contract_split.2.2.2.1 busNeverConnected "Present_Position" none 0 1 rfl⟩

/-- C7: `apply_drive_mode` fails with the invalid-drive-mode error when
any entry lies outside {0,1}; on valid drive modes of matching length it
is a self-inverse sign flip: applying it twice returns the original
positions. -/
theorem apply_drive_mode_contract :
    (∀ (x : List ℚ) (d : List ℤ), (∃ v ∈ d, ¬(v = 0 ∨ v = 1)) →
       apply_drive_mode x d = .error .invalidDriveMode) ∧
    (∀ (x : List ℚ) (d : List ℤ), (∀ v ∈ d, v = 0 ∨ v = 1) →
       x.length = d.length →
       ∃ y, apply_drive_mode x d = .ok y ∧ apply_drive_mode y d = .ok x) := by
  constructor
  · intro x d hex
    have hnall : ¬∀ v ∈ d, v = 0 ∨ v = 1 := by
      obtain ⟨v, hv, hnv⟩ := hex
      exact fun hall => hnv (hall v hv)
    unfold apply_drive_mode assert_drive_mode
    rw [if_neg hnall]
  · intro x d hd hl
    refine ⟨apply_drive_mode_unchecked x d, apply_drive_mode_of_valid x d hd, ?_⟩
    rw [apply_drive_mode_of_valid _ d hd, apply_drive_mode_unchecked_involutive x d hd hl]

theorem apply_drive_mode_contract_witness :
    apply_drive_mode [(5 : ℚ), -3] [2, 0] = .error .invalidDriveMode ∧
    (∃ y, apply_drive_mode [(5 : ℚ), -3] [1, 0] = .ok y ∧
      apply_drive_mode y [1, 0] = .ok [(5 : ℚ), -3]) := by
  constructor
  · exact apply_drive_mode_contract.1 [5, -3] [2, 0] ⟨2, by decide, by decide⟩
  · exact apply_drive_mode_contract.2 [5, -3] [1, 0] (by decide) (by decide)

theorem int32_astype_eq_self (z : ℤ) (h1 : -(2 ^ 31) ≤ z) (h2 : z < 2 ^ 31) :
    RosDynamixelMotorsBus.int32_astype z = z := by
  unfold RosDynamixelMotorsBus.int32_astype
  have he : (z + 2 ^ 31) % 2 ^ 32 = z + 2 ^ 31 :=
    Int.emod_eq_of_lt (by linarith) (by norm_num; linarith)
  rw [he]
  ring

/-- C8: the round-trip law. `apply_calibration` is the identity stub and
`revert_calibration` rounds to the device's native int32 unit, so
`apply_calibration(revert_calibration(apply_calibration(v)))` agrees with
`apply_calibration(v)` elementwise within the integer rounding tolerance
of one half raw unit, for every value whose rounding stays inside the
int32 range. -/
theorem calibration_round_trip (b : BusState) (v : List ℚ)
    (n : Option (List String))
    (hv : ∀ x ∈ v, -(2 ^ 31) ≤ npRound x ∧ npRound x < 2 ^ 31) :
    List.Forall₂ (fun a c => |a - c| ≤ 1/2)
      (RosDynamixelMotorsBus.apply_calibration b
        ((RosDynamixelMotorsBus.revert_calibration b
          (RosDynamixelMotorsBus.apply_calibration b v n) n).map (fun (z : ℤ) => (z : ℚ))) n)
      (RosDynamixelMotorsBus.apply_calibration b v n) := by
  unfold RosDynamixelMotorsBus.apply_calibration RosDynamixelMotorsBus.revert_calibration
  rw [List.map_map]
  induction v with
  | nil => exact List.Forall₂.nil
  | cons x xs ih =>
    have hx := hv x (List.mem_cons_self x xs)
    have hxs : ∀ y ∈ xs, -(2 ^ 31) ≤ npRound y ∧ npRound y < 2 ^ 31 :=
      fun y hy => hv y (List.mem_cons_of_mem x hy)
    rw [List.map_cons]
    refine List.Forall₂.cons ?_ (ih hxs)
    simp only [Function.comp]
    rw [int32_astype_eq_self (npRound x) hx.1 hx.2, abs_sub_comm]
    exact npRound_dist_le x

theorem calibration_round_trip_witness :
    (∀ x ∈ [(7 : ℚ)/5], -(2 ^ 31) ≤ npRound x ∧ npRound x < 2 ^ 31) ∧
    List.Forall₂ (fun a c => |a - c| ≤ 1/2)
      (RosDynamixelMotorsBus.apply_calibration busNeverConnected
        ((RosDynamixelMotorsBus.revert_calibration busNeverConnected
          (RosDynamixelMotorsBus.apply_calibration busNeverConnected [(7 : ℚ)/5] none)
          none).map (fun (z : ℤ) => (z : ℚ))) none)
      (RosDynamixelMotorsBus.apply_calibration busNeverConnected [(7 : ℚ)/5] none) := by
  have hb : ∀ x ∈ [(7 : ℚ)/5], -(2 ^ 31) ≤ npRound x ∧ npRound x < 2 ^ 31 := by
    intro x hx
    rw [List.mem_singleton] at hx
    subst hx
    rw [npRound_eq_of ((7 : ℚ)/5) 1 (by norm_num) (by norm_num)]
    norm_num
  exact ⟨hb, calibration_round_trip busNeverConnected [(7 : ℚ)/5] none hb⟩

/-- C9: the torque precondition is checked first. If any motor's
torque-enable reading differs from the disabled value, the procedure
fails with the precondition error after the torque read alone — no
operator prompt, no pose measurement, no calibration record; if every
motor reads disabled it proceeds and produces a record. -/
theorem run_arm_calibration_torque_guard (models : List MotorModel)
    (motor_names : List String) (robot_type arm_name arm_type : String)
    (reads : ArmReads) :
    ((∃ v ∈ reads.torque_enable, v ≠ TorqueMode.DISABLED) →
       run_arm_calibration models motor_names robot_type arm_name arm_type reads =
         (.error .torquePrecondition, [.readTorqueEnable])) ∧
    ((∀ v ∈ reads.torque_enable, v = TorqueMode.DISABLED) →
       ∃ r, (run_arm_calibration models motor_names robot_type arm_name arm_type reads).1 =
         .ok r) := by
  constructor
  · intro hex
    unfold run_arm_calibration
    rw [if_pos hex]
  · intro ht
    exact ⟨_, by
      rw [run_arm_calibration_ok_core models motor_names robot_type arm_name arm_type
        reads ht]⟩

theorem run_arm_calibration_torque_guard_witness :
    run_arm_calibration scen_models scen_names "koch" "main" "follower"
      { torque_enable := [1, 0], zero_present := [100, 100],
        rotated_present := [50, 150] } =
      (.error .torquePrecondition, [.readTorqueEnable]) :=
  (run_arm_calibration_torque_guard scen_models scen_names "koch" "main" "follower"
    { torque_enable := [1, 0], zero_present := [100, 100],
      rotated_present := [50, 150] }).1 ⟨1, by decide, by decide⟩
